import Mathlib

/-!
Verification development for the eBay Trading API exporter (src/src/main.rs).

The semi-structured response values (serde_json::Value, produced by
quick_xml::de::from_str) are embedded as the inductive type Json below.
Pure functions of the source (get_str, process_item, extract_payment_methods,
extract_items) are translated directly.  The paginated fetch loop of
TradingDataFetcher::fetch_mye_bay_category is modelled as a fuelled
recursion over a fake server (page number to decoded response), returning
the accumulated items together with the number of API calls made.  The
rate limiter RateLimiter::wait_for_slot is modelled as a step relation on
its state (the mutex-protected timestamp list, plus a ghost log of all
granted slots and the time of the last check), with time in milliseconds
as natural numbers.
-/

namespace EbayConnect

/-- Embedding of serde_json::Value: a dynamically shaped tree of
null / bool / number / string / array / object nodes.  Numbers are carried
as integers; no claim inspects a numeric value, only whether a node is a
string. Objects are association lists, first binding wins on lookup. -/
inductive Json where
  | null : Json
  | bool (b : Bool) : Json
  | num (n : Int) : Json
  | str (s : String) : Json
  | arr (xs : List Json) : Json
  | obj (fields : List (String × Json)) : Json

/-- Value::get(key): field lookup on an object node, None on every other
node shape (mirrors serde_json, where a string index on a non-object
returns None). -/
def Json.get (v : Json) (key : String) : Option Json :=
  match v with
  | .obj fields => fields.lookup key
  | _ => none

/-- Value::as_str(). -/
def Json.as_str (v : Json) : Option String :=
  match v with
  | .str s => some s
  | _ => none

/-- Value::as_array(). -/
def Json.as_array (v : Json) : Option (List Json) :=
  match v with
  | .arr xs => some xs
  | _ => none

/-- Value::as_object(). -/
def Json.as_object (v : Json) : Option (List (String × Json)) :=
  match v with
  | .obj fields => some fields
  | _ => none

/-- TradingDataProcessor::get_str: walk the dotted path node by node,
returning the empty string as soon as a segment is missing; at the end,
current.as_str().unwrap_or("") turns any non-string final node into the
empty string as well. -/
def get_str : Json → List String → String
  | v, [] => (Json.as_str v).getD ""
  | v, key :: rest =>
    match v.get key with
    | some w => get_str w rest
    | none => ""

/-- Pure path resolution: the walk of get_str without the final
string coercion.  Used to state which paths are missing. -/
def Json.resolve : Json → List String → Option Json
  | v, [] => some v
  | v, key :: rest =>
    match v.get key with
    | some w => Json.resolve w rest
    | none => none

/-- TradingDataProcessor::extract_payment_methods: a bare string is used
as is; an array is reduced to its string elements joined with ", "; an
object is probed for the sub-key "Payment", whose value is treated by the
array rule then the string rule; everything else (including an absent
node) yields the empty string. -/
def extract_payment_methods (pm : Option Json) : String :=
  match pm with
  | none => ""
  | some pm =>
    match pm.as_str with
    | some s => s
    | none =>
      match pm.as_array with
      | some xs => String.intercalate ", " (xs.filterMap Json.as_str)
      | none =>
        match pm.as_object with
        | some fields =>
          match fields.lookup "Payment" with
          | some val =>
            match val.as_array with
            | some xs => String.intercalate ", " (xs.filterMap Json.as_str)
            | none =>
              match val.as_str with
              | some s => s
              | none => ""
          | none => ""
        | none => ""

/-- The fixed key set of a processed row, in the insertion order of
TradingDataProcessor::process_item. -/
def knownFieldNames : List String :=
  ["Item ID", "SKU", "Title", "Category Name", "Start Price",
   "Current Price", "Currency", "Quantity", "Quantity Sold",
   "Listing Status", "Start Time", "End Time", "View Item URL",
   "Seller ID", "Payment Methods"]

/-- TradingDataProcessor::process_item: one flat row per record, as an
association list keyed by the fixed field names. -/
def process_item (item : Json) : List (String × String) :=
  [("Item ID", get_str item ["ItemID"]),
   ("SKU", get_str item ["SKU"]),
   ("Title", get_str item ["Title"]),
   ("Category Name", get_str item ["PrimaryCategory", "CategoryName"]),
   ("Start Price", get_str item ["StartPrice", "_"]),
   ("Current Price", get_str item ["SellingStatus", "CurrentPrice", "_"]),
   ("Currency", get_str item ["SellingStatus", "CurrentPrice", "currencyID"]),
   ("Quantity", get_str item ["Quantity"]),
   ("Quantity Sold", get_str item ["SellingStatus", "QuantitySold"]),
   ("Listing Status", get_str item ["SellingStatus", "ListingStatus"]),
   ("Start Time", get_str item ["ListingDetails", "StartTime"]),
   ("End Time", get_str item ["ListingDetails", "EndTime"]),
   ("View Item URL", get_str item ["ListingDetails", "ViewItemURL"]),
   ("Seller ID", get_str item ["Seller", "UserID"]),
   ("Payment Methods", extract_payment_methods (item.get "PaymentMethods"))]

/-- TradingDataFetcher::extract_items: descend into ItemArray.Item; a
list node gives its elements, any other present node is wrapped as a
one-element list, an absent ItemArray or Item gives the empty list. -/
def extract_items (list_container : Json) : List Json :=
  match (list_container.get "ItemArray").bind (fun ia => ia.get "Item") with
  | some items =>
    match items.as_array with
    | some xs => xs
    | none => [items]
  | none => []

/-- The has-more-items test of fetch_mye_bay_category:
list_container.get("HasMoreItems").and_then(as_str).map(s == "true").unwrap_or(false). -/
def has_more (list_container : Json) : Bool :=
  (((list_container.get "HasMoreItems").bind Json.as_str).map
    (fun s => s == "true")).getD false

/-- One decoded response per requested page number: a fake server standing
in for make_request("GetMyeBaySelling", body-with-page-number), which the
loop of fetch_mye_bay_category consumes. -/
def FakeServer : Type := Nat → Json

/-- The loop body of TradingDataFetcher::fetch_mye_bay_category, as a
fuelled recursion: request the current page, take the list container
(Value::Null when absent), extract its items; an empty item list breaks
out; otherwise the items are appended and the loop continues to page + 1
exactly when has_more holds.  The result pairs the accumulated items with
the number of API calls made; none means the fuel ran out before the loop
broke.  page_container is the list container of one response:
response.get(list_type).cloned().unwrap_or(Value::Null). -/
def page_container (list_type : String) (server : FakeServer) (page : Nat) : Json :=
  ((server page).get list_type).getD Json.null

def fetch_loop (list_type : String) (server : FakeServer) :
    Nat → Nat → Option (List Json × Nat)
  | 0, _ => none
  | fuel + 1, page =>
    let lc := page_container list_type server page
    let items := extract_items lc
    if items.isEmpty then some ([], 1)
    else if has_more lc then
      match fetch_loop list_type server fuel (page + 1) with
      | some (rest, calls) => some (items ++ rest, calls + 1)
      | none => none
    else some (items, 1)

/-- TradingDataFetcher::fetch_mye_bay_category starts at page 1. -/
def fetch_mye_bay_category (list_type : String) (server : FakeServer)
    (fuel : Nat) : Option (List Json × Nat) :=
  fetch_loop list_type server fuel 1

/-- Error kinds surfaced by TradingApiClient::make_request.  transport
covers a failed send or body read; decodeError a body quick_xml cannot
parse; applicationError carries response.get("Errors") when the Ack field
says Failure or PartialFailure. -/
inductive ApiError where
  | transport : ApiError
  | decodeError : ApiError
  | applicationError (errors : Option Json) : ApiError

/-- The observable outcome of the HTTP round trip inside make_request:
the status code and the result of parsing the body (none when the XML
parse fails).  reqwest send()/text() do not fail on a non-2xx status, so
a bad status still yields some HttpOutcome. -/
structure HttpOutcome where
  status : Nat
  parse : Option Json

/-- TradingApiClient::make_request after the envelope is built: a failed
round trip (outcome none) is a transport error; an unparseable body is a
decode error; a parsed body whose Ack string is "Failure" or
"PartialFailure" is an application error carrying the Errors node; any
other parsed body is returned as is.  The HTTP status is never consulted
in the source, so it is carried but unused here. -/
def make_request (outcome : Option HttpOutcome) : Except ApiError Json :=
  match outcome with
  | none => .error .transport
  | some o =>
    match o.parse with
    | none => .error .decodeError
    | some value =>
      match (value.get "Ack").bind Json.as_str with
      | some ack =>
        if ack == "Failure" || ack == "PartialFailure" then
          .error (.applicationError (value.get "Errors"))
        else .ok value
      | none => .ok value

/-- Error kinds of ExcelExporter::export_to_excel: emptyDataset for the
"No data to export" rejection, writeError for any failing worksheet
write, save or metadata call. -/
inductive ExportError where
  | emptyDataset : ExportError
  | writeError : ExportError

/-- The ExportResult struct of the source. -/
structure ExportResult where
  filename : String
  record_count : Nat
  file_size : Nat

/-- ExcelExporter::export_to_excel.  The spreadsheet I/O is abstracted as
io : Option Nat — none when any write/save/metadata call fails, some size
when the file is saved with that byte size.  Empty input is rejected
before any workbook is created, so the io outcome is not consulted on
that branch; otherwise record_count is the number of rows. -/
def export_to_excel (io : Option Nat) (data : List (List (String × String)))
    (filename : String) : Except ExportError ExportResult :=
  if data.isEmpty then .error .emptyDataset
  else
    match io with
    | none => .error .writeError
    | some size => .ok ⟨filename, data.length, size⟩

/-- Config::REQUESTS_PER_SECOND. -/
def REQUESTS_PER_SECOND : Nat := 2

/-- RateLimiter::wait_for_slot pruning: times.retain(now - t < 1 second),
with time in milliseconds. -/
def pruneTimes (now : Nat) (ts : List Nat) : List Nat :=
  ts.filter (fun t => now - t < 1000)

/-- The rate limiter state: the mutex-protected timestamp vector of the
source, a ghost log of every granted slot, and the time of the last
check (Instant::now is monotone, so each step sees a time at least
lastNow). -/
structure RLState where
  times : List Nat
  log : List Nat
  lastNow : Nat

/-- One iteration of the wait_for_slot loop under the lock: prune the
timestamp list; with fewer than REQUESTS_PER_SECOND entries left the slot
is granted and now is pushed, otherwise the pruned list is kept and the
caller sleeps to re-check later. -/
inductive RLStep : RLState → RLState → Prop
  | sleep (s : RLState) (now : Nat) (hmono : s.lastNow ≤ now)
      (hfull : ¬ (pruneTimes now s.times).length < REQUESTS_PER_SECOND) :
      RLStep s ⟨pruneTimes now s.times, s.log, now⟩
  | grant (s : RLState) (now : Nat) (hmono : s.lastNow ≤ now)
      (hfree : (pruneTimes now s.times).length < REQUESTS_PER_SECOND) :
      RLStep s ⟨pruneTimes now s.times ++ [now], s.log ++ [now], now⟩

/-- States reachable from the freshly constructed RateLimiter (empty
vector). -/
inductive RLReach : RLState → Prop
  | init : RLReach ⟨[], [], 0⟩
  | step {s t : RLState} : RLReach s → RLStep s t → RLReach t

/-- Number of granted slots in the trailing 1-second window ending at w. -/
def windowCount (log : List Nat) (w : Nat) : Nat :=
  (log.filter (fun t => t ≤ w && w - t < 1000)).length

/-- A distinguishable fake listing record. -/
def fakeItem (i : Int) : Json := Json.obj [("ItemID", Json.num i)]

/-- A fake decoded GetMyeBaySelling response: the ActiveList container
with an item list and a HasMoreItems string. -/
def fakePage (items : List Json) (more : String) : Json :=
  Json.obj [("ActiveList", Json.obj
    [("ItemArray", Json.obj [("Item", Json.arr items)]),
     ("HasMoreItems", Json.str more)])]

/-- The fake server of the termination property: page 1 has five items
and says more, page 2 has five items and says more, page 3 is empty. -/
def fakeServer : FakeServer := fun page =>
  match page with
  | 1 => fakePage [fakeItem 1, fakeItem 2, fakeItem 3, fakeItem 4, fakeItem 5] "true"
  | 2 => fakePage [fakeItem 6, fakeItem 7, fakeItem 8, fakeItem 9, fakeItem 10] "true"
  | _ => fakePage [] "true"

/-- get_str is path resolution followed by the string coercion
as_str().unwrap_or(""). -/
theorem get_str_eq_resolve (v : Json) (path : List String) :
    get_str v path = ((Json.resolve v path).bind Json.as_str).getD "" := by
  induction path generalizing v with
  | nil => rfl
  | cons key rest ih =>
    simp only [get_str, Json.resolve]
    cases v.get key with
    | none => rfl
    | some w => exact ih w

/-- C1: against the fake server returning two full pages with the
has-more flag "true" followed by an empty page, fetch_mye_bay_category
returns exactly the ten items, page 1 items first then page 2 items,
each in page order, and makes exactly three API calls. -/
theorem fetch_ten_items_three_calls :
    fetch_mye_bay_category "ActiveList" fakeServer 10 =
      some ([fakeItem 1, fakeItem 2, fakeItem 3, fakeItem 4, fakeItem 5,
             fakeItem 6, fakeItem 7, fakeItem 8, fakeItem 9, fakeItem 10], 3) := by
  rfl

/-- C2: the pagination loop stops after an empty page whatever the flag
says; after a non-empty page it continues exactly when the HasMoreItems
field of the list container is the string "true" (case-sensitive string
equality); the non-empty stopping page keeps its items in the result. -/
theorem pagination_stop_and_continue (list_type : String) (server : FakeServer)
    (fuel page : Nat) :
    ((extract_items (page_container list_type server page)).isEmpty = true →
        fetch_loop list_type server (fuel + 1) page = some ([], 1)) ∧
    ((extract_items (page_container list_type server page)).isEmpty = false →
        has_more (page_container list_type server page) = false →
        fetch_loop list_type server (fuel + 1) page =
          some (extract_items (page_container list_type server page), 1)) ∧
    ((extract_items (page_container list_type server page)).isEmpty = false →
        has_more (page_container list_type server page) = true →
        fetch_loop list_type server (fuel + 1) page =
          (fetch_loop list_type server fuel (page + 1)).map
            (fun r => (extract_items (page_container list_type server page) ++ r.1,
                       r.2 + 1))) ∧
    (has_more (page_container list_type server page) = true ↔
        (page_container list_type server page).get "HasMoreItems" =
          some (Json.str "true")) := by
  refine ⟨?_, ?_, ?_, ?_⟩
  · intro h
    simp [fetch_loop, h]
  · intro h1 h2
    simp [fetch_loop, h1, h2]
  · intro h1 h2
    simp only [fetch_loop, h1, h2, Bool.false_eq_true, if_false, if_true]
    cases fetch_loop list_type server fuel (page + 1) with
    | none => rfl
    | some r => rfl
  · unfold has_more
    cases hg : (page_container list_type server page).get "HasMoreItems" with
    | none => simp
    | some v =>
      cases v <;> simp [Json.as_str]

/-- Witness for C2: the fake server stops immediately on its empty
page 3, and continues from page 1 whose flag is "true". -/
theorem pagination_stop_and_continue_witness :
    fetch_loop "ActiveList" fakeServer 1 3 = some ([], 1) ∧
    fetch_loop "ActiveList" fakeServer 2 1 =
      (fetch_loop "ActiveList" fakeServer 1 2).map
        (fun r => (extract_items (page_container "ActiveList" fakeServer 1) ++ r.1,
                   r.2 + 1)) :=
  ⟨(pagination_stop_and_continue "ActiveList" fakeServer 0 3).1 (by rfl),
   (pagination_stop_and_continue "ActiveList" fakeServer 1 1).2.2.1 (by rfl) (by rfl)⟩

/-- C3: process_item is a total function of the record (it is defined for
every Json value), its key list is the fixed knownFieldNames whatever the
record looks like, and any field whose dotted path fails to resolve comes
out as the empty string rather than an error. -/
theorem process_item_total_fixed_keys (item : Json) :
    (process_item item).map Prod.fst = knownFieldNames ∧
    ∀ path : List String, Json.resolve item path = none →
      get_str item path = "" := by
  refine ⟨rfl, ?_⟩
  intro path h
  rw [get_str_eq_resolve, h]
  rfl

/-- Witness for C3 at the most degenerate record, Json.null, where every
path is missing. -/
theorem process_item_total_fixed_keys_witness :
    (process_item Json.null).map Prod.fst = knownFieldNames ∧
    get_str Json.null ["SellingStatus", "CurrentPrice", "_"] = "" :=
  ⟨(process_item_total_fixed_keys Json.null).1,
   (process_item_total_fixed_keys Json.null).2
     ["SellingStatus", "CurrentPrice", "_"] (by rfl)⟩

/-- C4: extract_payment_methods resolves a string node to itself, an
array node to its string elements joined with ", ", an object node with a
Payment sub-key by the array rule then the string rule on that value, and
everything else (other object nodes, scalars, null, an absent node) to
the empty string; the four concrete examples of the spec follow. -/
theorem extract_payment_methods_resolution :
    (∀ s, extract_payment_methods (some (Json.str s)) = s) ∧
    (∀ xs, extract_payment_methods (some (Json.arr xs)) =
        String.intercalate ", " (xs.filterMap Json.as_str)) ∧
    (∀ fields v, fields.lookup "Payment" = some v →
        extract_payment_methods (some (Json.obj fields)) =
          match v.as_array with
          | some xs => String.intercalate ", " (xs.filterMap Json.as_str)
          | none => (v.as_str).getD "") ∧
    (∀ fields, fields.lookup "Payment" = none →
        extract_payment_methods (some (Json.obj fields)) = "") ∧
    (∀ b, extract_payment_methods (some (Json.bool b)) = "") ∧
    (∀ n, extract_payment_methods (some (Json.num n)) = "") ∧
    extract_payment_methods (some Json.null) = "" ∧
    extract_payment_methods none = "" ∧
    extract_payment_methods (some (Json.str "COD")) = "COD" ∧
    extract_payment_methods
      (some (Json.arr [Json.str "PayPal", Json.str "COD"])) = "PayPal, COD" ∧
    extract_payment_methods
      (some (Json.obj [("Payment", Json.arr [Json.str "Cash"])])) = "Cash" ∧
    extract_payment_methods (some (Json.obj [])) = "" := by
  refine ⟨fun s => rfl, fun xs => rfl, ?_, ?_, fun b => rfl, fun n => rfl,
    rfl, rfl, rfl, rfl, rfl, rfl⟩
  · intro fields v h
    simp only [extract_payment_methods, Json.as_str, Json.as_array,
      Json.as_object, h]
    cases v <;> rfl
  · intro fields h
    simp only [extract_payment_methods, Json.as_str, Json.as_array,
      Json.as_object, h]

/-- Witness for C4: the object rule applied to a record whose Payment
sub-key holds an array. -/
theorem extract_payment_methods_resolution_witness :
    extract_payment_methods
      (some (Json.obj [("Other", Json.null),
                       ("Payment", Json.arr [Json.str "Cash"])])) = "Cash" ∧
    extract_payment_methods (some (Json.obj [("NoPay", Json.null)])) = "" :=
  ⟨extract_payment_methods_resolution.2.2.1
      [("Other", Json.null), ("Payment", Json.arr [Json.str "Cash"])]
      (Json.arr [Json.str "Cash"]) (by rfl),
   extract_payment_methods_resolution.2.2.2.1 [("NoPay", Json.null)] (by rfl)⟩

/-- C5: extract_items wraps a present ItemArray.Item node that is not a
list into a one-element list, returns a list node as is, and returns the
empty list when ItemArray or Item is absent. -/
theorem extract_items_shapes :
    (∀ lc ia v, lc.get "ItemArray" = some ia → Json.get ia "Item" = some v →
        v.as_array = none → extract_items lc = [v]) ∧
    (∀ lc ia xs, lc.get "ItemArray" = some ia →
        Json.get ia "Item" = some (Json.arr xs) → extract_items lc = xs) ∧
    (∀ lc, lc.get "ItemArray" = none → extract_items lc = []) ∧
    (∀ lc ia, lc.get "ItemArray" = some ia → Json.get ia "Item" = none →
        extract_items lc = []) := by
  refine ⟨?_, ?_, ?_, ?_⟩
  · intro lc ia v h1 h2 h3
    simp [extract_items, h1, h2, h3]
  · intro lc ia xs h1 h2
    simp [extract_items, h1, h2, Json.as_array]
  · intro lc h1
    simp [extract_items, h1]
  · intro lc ia h1 h2
    simp [extract_items, h1, h2]

/-- Witness for C5: a bare object under Item yields one element, a
two-element list stays itself, a missing ItemArray yields nothing. -/
theorem extract_items_shapes_witness :
    extract_items (Json.obj [("ItemArray",
        Json.obj [("Item", Json.obj [("ItemID", Json.str "7")])])]) =
      [Json.obj [("ItemID", Json.str "7")]] ∧
    extract_items (Json.obj [("ItemArray",
        Json.obj [("Item", Json.arr [Json.null, Json.bool true])])]) =
      [Json.null, Json.bool true] ∧
    extract_items (Json.obj [("HasMoreItems", Json.str "true")]) = [] :=
  ⟨extract_items_shapes.1
      (Json.obj [("ItemArray",
        Json.obj [("Item", Json.obj [("ItemID", Json.str "7")])])])
      (Json.obj [("Item", Json.obj [("ItemID", Json.str "7")])])
      (Json.obj [("ItemID", Json.str "7")]) (by rfl) (by rfl) (by rfl),
   extract_items_shapes.2.1
      (Json.obj [("ItemArray",
        Json.obj [("Item", Json.arr [Json.null, Json.bool true])])])
      (Json.obj [("Item", Json.arr [Json.null, Json.bool true])])
      [Json.null, Json.bool true] (by rfl) (by rfl),
   extract_items_shapes.2.2.1
      (Json.obj [("HasMoreItems", Json.str "true")]) (by rfl)⟩

/-- C10: when a dotted path fully resolves but lands on a node that is
not a string (a number, a boolean, or any other non-string node), get_str
returns the empty string, indistinguishable from a missing path. -/
theorem get_str_nonstring_scalar (item : Json) (path : List String) (v : Json)
    (hres : Json.resolve item path = some v) (hns : Json.as_str v = none) :
    get_str item path = "" := by
  rw [get_str_eq_resolve, hres]
  simp [hns]

/-- Witness for C10: a numeric Quantity resolves but flattens to "". -/
theorem get_str_nonstring_scalar_witness :
    get_str (Json.obj [("Quantity", Json.num 5)]) ["Quantity"] = "" :=
  get_str_nonstring_scalar (Json.obj [("Quantity", Json.num 5)]) ["Quantity"]
    (Json.num 5) (by rfl) (by rfl)

/-- C6: whatever the HTTP status, a parsed body whose Ack string is
"Failure" or "PartialFailure" makes make_request fail with an application
error carrying the Errors node of the response, while any other Ack
string does not make the call fail on account of the acknowledgement. -/
theorem make_request_ack_detection (o : HttpOutcome) (value : Json)
    (ack : String) (hp : o.parse = some value)
    (ha : (value.get "Ack").bind Json.as_str = some ack) :
    ((ack = "Failure" ∨ ack = "PartialFailure") →
        make_request (some o) =
          .error (.applicationError (value.get "Errors"))) ∧
    (ack ≠ "Failure" → ack ≠ "PartialFailure" →
        make_request (some o) = .ok value) := by
  constructor
  · intro hack
    rcases hack with h | h <;> subst h <;> simp [make_request, hp, ha]
  · intro h1 h2
    simp [make_request, hp, ha, h1, h2]

/-- Witness for C6: a 200 response acknowledging Failure errors out with
its Errors node, and a 200 response acknowledging Success is returned. -/
theorem make_request_ack_detection_witness :
    make_request (some ⟨200, some (Json.obj
        [("Ack", Json.str "Failure"), ("Errors", Json.str "boom")])⟩) =
      .error (.applicationError (some (Json.str "boom"))) ∧
    make_request (some ⟨200, some (Json.obj [("Ack", Json.str "Success")])⟩) =
      .ok (Json.obj [("Ack", Json.str "Success")]) :=
  ⟨(make_request_ack_detection
      ⟨200, some (Json.obj
        [("Ack", Json.str "Failure"), ("Errors", Json.str "boom")])⟩
      (Json.obj [("Ack", Json.str "Failure"), ("Errors", Json.str "boom")])
      "Failure" (by rfl) (by rfl)).1 (Or.inl rfl),
   (make_request_ack_detection
      ⟨200, some (Json.obj [("Ack", Json.str "Success")])⟩
      (Json.obj [("Ack", Json.str "Success")])
      "Success" (by rfl) (by rfl)).2 (by simp) (by simp)⟩

/-- C7 counterexample: a round trip with HTTP status 500 whose body
parses with Ack "Success" makes make_request return Ok, not an error —
the source never inspects the status, so a non-success status alone does
not fail the call, contrary to the claimed ProtocolError. -/
theorem make_request_500_returns_ok :
    make_request (some ⟨500, some (Json.obj [("Ack", Json.str "Success")])⟩) =
      .ok (Json.obj [("Ack", Json.str "Success")]) := by
  rfl

/-- C7 amended: make_request never consults the HTTP status — two
outcomes differing only in status produce identical results, so a
non-2xx status by itself causes no error; failures come only from
transport, body decoding, or the acknowledgement field. -/
theorem make_request_status_independent (s₁ s₂ : Nat) (p : Option Json) :
    make_request (some ⟨s₁, p⟩) = make_request (some ⟨s₂, p⟩) := rfl

/-- C9: exporting zero rows fails with emptyDataset before any workbook
I/O happens (the outcome is the same for every io argument, in
particular no file is produced), and exporting N ≥ 1 rows under
successful I/O yields Ok with record_count = N, the number of rows. -/
theorem export_to_excel_contract (io : Option Nat)
    (data : List (List (String × String))) (filename : String) :
    (data.isEmpty = true →
        export_to_excel io data filename = .error .emptyDataset) ∧
    (∀ size, data.isEmpty = false → io = some size →
        export_to_excel io data filename =
          .ok ⟨filename, data.length, size⟩) := by
  constructor
  · intro h
    simp [export_to_excel, h]
  · intro size h hio
    simp [export_to_excel, h, hio]

/-- Witness for C9: zero rows fail even when the writer would succeed;
one processed row exports with record_count 1. -/
theorem export_to_excel_contract_witness :
    export_to_excel (some 9000) [] "out.xlsx" = .error .emptyDataset ∧
    export_to_excel (some 9000) [process_item Json.null] "out.xlsx" =
      .ok ⟨"out.xlsx", 1, 9000⟩ :=
  ⟨(export_to_excel_contract (some 9000) [] "out.xlsx").1 (by rfl),
   (export_to_excel_contract (some 9000) [process_item Json.null]
      "out.xlsx").2 9000 (by rfl) rfl⟩

/-- Re-pruning an already pruned log at a later time equals pruning the
log at the later time directly: entries inside the new window were inside
the old one. -/
theorem log_filter_now (log : List Nat) (lastNow now : Nat)
    (hmono : lastNow ≤ now) :
    pruneTimes now (log.filter (fun t => lastNow - t < 1000)) =
      log.filter (fun t => now - t < 1000) := by
  unfold pruneTimes
  rw [List.filter_filter]
  apply List.filter_congr
  intro t _
  by_cases h : now - t < 1000
  · have h2 : lastNow - t < 1000 := by omega
    simp [h, h2]
  · simp [h]

/-- The invariant of the rate limiter: every granted slot is no later
than the last check, the timestamp vector is exactly the slots of the
ghost log still inside the last checked window, and no trailing 1-second
window holds more than REQUESTS_PER_SECOND granted slots. -/
def RLInv (s : RLState) : Prop :=
  (∀ t ∈ s.log, t ≤ s.lastNow) ∧
  s.times = s.log.filter (fun t => s.lastNow - t < 1000) ∧
  ∀ w, windowCount s.log w ≤ REQUESTS_PER_SECOND

theorem rl_inv_init : RLInv ⟨[], [], 0⟩ := by
  refine ⟨by simp, by simp, fun w => ?_⟩
  simp [windowCount, REQUESTS_PER_SECOND]

theorem rl_inv_step {s u : RLState} (hs : RLInv s) (hstep : RLStep s u) :
    RLInv u := by
  obtain ⟨hle, htimes, hwin⟩ := hs
  cases hstep with
  | sleep now hmono hfull =>
    refine ⟨fun t ht => le_trans (hle t ht) hmono, ?_, fun w => hwin w⟩
    show pruneTimes now s.times = s.log.filter (fun t => now - t < 1000)
    rw [htimes]
    exact log_filter_now s.log s.lastNow now hmono
  | grant now hmono hfree =>
    have hprune : pruneTimes now s.times =
        s.log.filter (fun t => now - t < 1000) := by
      rw [htimes]
      exact log_filter_now s.log s.lastNow now hmono
    refine ⟨?_, ?_, ?_⟩
    · intro t ht
      rcases List.mem_append.mp ht with h | h
      · exact le_trans (hle t h) hmono
      · rw [List.mem_singleton.mp h]
    · show pruneTimes now s.times ++ [now] =
        (s.log ++ [now]).filter (fun t => now - t < 1000)
      rw [List.filter_append, hprune]
      simp
    · intro w
      show windowCount (s.log ++ [now]) w ≤ REQUESTS_PER_SECOND
      unfold windowCount
      rw [List.filter_append, List.length_append]
      by_cases hw : now ≤ w ∧ w - now < 1000
      · have h1 : (([now] : List Nat).filter
            (fun t => t ≤ w && w - t < 1000)).length = 1 := by
          simp [hw.1, hw.2]
        have h2 : (s.log.filter (fun t => t ≤ w && w - t < 1000)).length ≤
            (s.log.filter (fun t => now - t < 1000)).length := by
          refine List.Sublist.length_le (List.monotone_filter_right s.log ?_)
          intro a ha
          simp only [Bool.and_eq_true, decide_eq_true_eq] at ha ⊢
          omega
        have h3 : (s.log.filter (fun t => now - t < 1000)).length <
            REQUESTS_PER_SECOND := by
          rw [← hprune]
          exact hfree
        omega
      · have h1 : (([now] : List Nat).filter
            (fun t => t ≤ w && w - t < 1000)).length = 0 := by
          have hpnow : ((now ≤ w : Bool) && (w - now < 1000 : Bool)) = false := by
            simp only [Bool.and_eq_false_iff, decide_eq_false_iff_not]
            omega
          simp [List.filter_cons, hpnow]
        have h2 := hwin w
        unfold windowCount at h2
        omega

/-- Every reachable rate limiter state satisfies the invariant. -/
theorem rl_reach_inv {s : RLState} (h : RLReach s) : RLInv s := by
  induction h with
  | init => exact rl_inv_init
  | step hreach hstep ih => exact rl_inv_step ih hstep

/-- C8: along any run of the wait_for_slot step relation — each step
either grants a slot (allowed only when fewer than REQUESTS_PER_SECOND
pruned timestamps remain) or prunes and sleeps — no trailing 1-second
window ever contains more than REQUESTS_PER_SECOND granted slots. -/
theorem rate_limiter_window_bound (s : RLState) (h : RLReach s) (w : Nat) :
    windowCount s.log w ≤ REQUESTS_PER_SECOND :=
  (rl_reach_inv h).2.2 w

/-- Witness for C8: two back-to-back grants at time 0 are reachable and
stay within the window bound. -/
theorem rate_limiter_window_bound_witness :
    windowCount [0, 0] 500 ≤ REQUESTS_PER_SECOND := by
  have h0 : RLReach ⟨[], [], 0⟩ := RLReach.init
  have h1 : RLReach ⟨[0], [0], 0⟩ :=
    RLReach.step h0 (RLStep.grant ⟨[], [], 0⟩ 0 (Nat.le_refl 0) (by decide))
  have h2 : RLReach ⟨[0, 0], [0, 0], 0⟩ :=
    RLReach.step h1 (RLStep.grant ⟨[0], [0], 0⟩ 0 (Nat.le_refl 0) (by decide))
  exact rate_limiter_window_bound ⟨[0, 0], [0, 0], 0⟩ h2 500

end EbayConnect
